import Mathlib

/-!
Verification of the data-access and notification layer of Dallinger
(`dallinger/db.py` and `dallinger/notifications.py`).

We shallowly embed the control flow of the Python source:

* The `serialized` retry decorator (`db.py`, `serialized`) is modelled as a
  function from an attempt-indexed behaviour of the wrapped work (including
  the commit that follows it) to the trace of session events it performs
  and its final outcome (a normal return or a propagated exception).
* The outbox event listeners (`after_begin`, `after_soft_rollback`,
  `queue_message`, `after_commit`) are modelled as a state machine over a
  session state holding the optional outbox list and the list of messages
  published to the bus.
* The `sessions_scope` context manager is modelled as a function from the
  outcomes of the work, the commit call and the rollback call to the trace
  of calls it makes and the exception it lets escape, if any.
* `get_mailer` / `EmailConfig.validate` and `SMTPMailer.send` from
  `notifications.py` are modelled directly.
-/

set_option maxRecDepth 20000

namespace Dallinger

/-! ## The serialized retry driver (`db.py`, `serialized`) -/

/-- Exceptions visible to the `serialized` wrapper.
`operational b` models a `sqlalchemy.exc.OperationalError` whose `orig`
is a `TransactionRollbackError` exactly when `b = true` (a
serialization-conflict error).  `exhausted` models the
`Exception("Could not commit serialized transaction after 100 attempts.")`
raised in the wrapper itself.  `other code` models any exception of a
class other than `OperationalError` (for example a `ValueError` raised by
the wrapped work), tagged by a code so distinct errors can be told apart. -/
inductive Exc where
  | operational (conflictOrig : Bool)
  | exhausted
  | other (code : Nat)
  deriving DecidableEq

/-- Outcome of one attempt of the wrapped work followed by `session.commit()`:
either both succeed with a value, or one of them raises. -/
inductive Outcome (α : Type) where
  | ok (v : α)
  | err (e : Exc)
  deriving DecidableEq

/-- Session events performed by the `serialized` wrapper, in order:
`beginAttempt` is the `session.connection(execution_options=...SERIALIZABLE)`
call opening an attempt, `commitEv` is a successful `session.commit()`,
`rollback` is `session.rollback()`, `remove` is `session.remove()`, and
`sleep` is `time.sleep(random.expovariate(0.5))`. -/
inductive Ev where
  | beginAttempt
  | commitEv
  | rollback
  | remove
  | sleep
  deriving DecidableEq

/-- Final outcome of the wrapper: a normal return (`ret none` models the
implicit `return None` reached when the `while` loop exits) or a
propagated exception. -/
inductive RunResult (α : Type) where
  | ret (v : Option α)
  | raised (e : Exc)
  deriving DecidableEq

/-- The `while attempts > 0` loop of `serialized` in `db.py`.
`behave k` is the outcome of the `k`-th attempt of
`func(*args, **kw)` followed by `session.commit()`; the first argument is
the current value of `attempts`.  Faithful to the source:
on success the `return result` skips the trailing `time.sleep`; on an
`OperationalError` whose `orig` is a `TransactionRollbackError` the inner
`if attempts > 0` check is made (at that point `attempts = n + 1`), the
counter is decremented and the sleep runs; on any other `OperationalError`
the bare `raise` re-raises after `session.rollback()`; exceptions of other
classes are not caught at all, so no rollback call is made.  The
`finally: session.remove()` runs on every path. -/
def serializedRun {α : Type} (behave : Nat → Outcome α) :
    Nat → Nat → List Ev × RunResult α
  | 0, _ => ([], .ret none)
  | n + 1, k =>
    match behave k with
    | .ok v => ([.beginAttempt, .commitEv, .remove], .ret (some v))
    | .err (.operational true) =>
      if n + 1 > 0 then
        let rest := serializedRun behave n (k + 1)
        (.beginAttempt :: .rollback :: .remove :: .sleep :: rest.1, rest.2)
      else
        ([.beginAttempt, .rollback, .remove], .raised .exhausted)
    | .err (.operational false) =>
      ([.beginAttempt, .rollback, .remove], .raised (.operational false))
    | .err e => ([.beginAttempt, .remove], .raised e)

/-- The `serialized` decorator body: `attempts = 100`, an initial
`session.remove()`, then the retry loop. -/
def serialized {α : Type} (behave : Nat → Outcome α) : List Ev × RunResult α :=
  let r := serializedRun behave 100 1
  (.remove :: r.1, r.2)

/-- A work function that raises a serialization-conflict error
(`OperationalError` with `orig` a `TransactionRollbackError`) on every
attempt. -/
def alwaysConflict : Nat → Outcome Nat := fun _ => .err (.operational true)

/-- Unfolding of `serializedRun` on the always-conflicting behaviour: each
of the `n` iterations contributes the block begin/rollback/remove/sleep,
and when the counter reaches zero the loop exits and the wrapper returns
`None`. -/
theorem serializedRun_alwaysConflict (n k : Nat) :
    serializedRun alwaysConflict n k =
      ((List.replicate n
          ([Ev.beginAttempt, Ev.rollback, Ev.remove, Ev.sleep])).flatten,
        RunResult.ret (none : Option Nat)) := by
  induction n generalizing k with
  | zero => simp [serializedRun]
  | succ m ih =>
    simp [serializedRun, alwaysConflict, ih (k + 1), List.replicate_succ]

/-- Number of attempts made by a run of `serialized`: the number of times
the wrapper opened a serializable connection for the work. -/
def attemptCount (trace : List Ev) : Nat :=
  trace.count Ev.beginAttempt

/-- The full trace of `serialized` on the always-conflicting behaviour. -/
theorem serialized_alwaysConflict_eq :
    serialized alwaysConflict =
      (Ev.remove ::
        (List.replicate 100
          ([Ev.beginAttempt, Ev.rollback, Ev.remove, Ev.sleep])).flatten,
        RunResult.ret (none : Option Nat)) := by
  simp [serialized, serializedRun_alwaysConflict]

/-- C1: on a work function that raises a serialization-conflict error on
every attempt, the driver does make exactly 100 attempts, but then it
RETURNS NORMALLY (with `None`) instead of raising the distinct
"retries exhausted" error: the `raise Exception("Could not commit
serialized transaction after 100 attempts.")` branch in `db.py` is dead
code, because the guard `if attempts > 0` inside the `except` block is
always true when reached (the `while attempts > 0` loop condition already
guaranteed it and the counter is only decremented afterwards).  This
theorem evaluates the embedded code at the failing input. -/
theorem serialized_exhaustion_returns_none :
    attemptCount (serialized alwaysConflict).1 = 100 ∧
    (serialized alwaysConflict).2 = RunResult.ret (none : Option Nat) ∧
    (serialized alwaysConflict).2 ≠ RunResult.raised Exc.exhausted := by
  rw [serialized_alwaysConflict_eq]
  refine ⟨?_, rfl, by simp⟩
  decide

/-- C3: on the always-conflicting behaviour the trace of the driver ends
with a `sleep`: the randomized backoff also runs after the 100th (final)
rejected attempt, although no retry follows it, contradicting the
specification decision that backoff occurs only between a rejected
attempt and the retry that follows it.  One sleep per rejected attempt is
performed, 100 in total, while only 99 gaps between consecutive attempts
exist.  This theorem evaluates the embedded code at the failing input. -/
theorem serialized_sleeps_after_final_conflict :
    (serialized alwaysConflict).1.getLast? = some Ev.sleep ∧
    (serialized alwaysConflict).1.count Ev.sleep = 100 ∧
    attemptCount (serialized alwaysConflict).1 = 100 := by
  rw [serialized_alwaysConflict_eq]
  refine ⟨?_, ?_, ?_⟩ <;> decide

/-- Unfolding the first loop iteration of `serializedRun` (with the full
budget of 100 attempts, as `serialized` starts it). -/
theorem serializedRun_hundred {α : Type} (behave : Nat → Outcome α) :
    serializedRun behave 100 1 =
      match behave 1 with
      | .ok v => ([.beginAttempt, .commitEv, .remove], .ret (some v))
      | .err (.operational true) =>
        let rest := serializedRun behave 99 2
        (.beginAttempt :: .rollback :: .remove :: .sleep :: rest.1, rest.2)
      | .err (.operational false) =>
        ([.beginAttempt, .rollback, .remove], .raised (.operational false))
      | .err e => ([.beginAttempt, .remove], .raised e) := by
  show serializedRun behave (99 + 1) 1 = _
  rw [serializedRun]
  cases behave 1 with
  | ok v => rfl
  | err e =>
    cases e with
    | operational b => cases b <;> simp
    | exhausted => rfl
    | other c => rfl

/-- C2 (amended): if the first attempt raises an error that is not a
serialization-conflict error, the driver makes exactly one attempt, never
sleeps, ends with a `session.remove()` releasing the session state, and
propagates the original error unchanged; it performs an explicit
`session.rollback()` exactly when the error is an `OperationalError`
(whose `orig` is not a `TransactionRollbackError`) — exceptions of any
other class escape the `except OperationalError` clause, so for them no
rollback call is made and only the `finally: session.remove()` runs. -/
theorem serialized_nonconflict_single_attempt {α : Type}
    (behave : Nat → Outcome α) (e : Exc)
    (h1 : behave 1 = .err e) (hnc : e ≠ .operational true) :
    (serialized behave).2 = RunResult.raised e ∧
    attemptCount (serialized behave).1 = 1 ∧
    Ev.sleep ∉ (serialized behave).1 ∧
    (serialized behave).1.getLast? = some Ev.remove ∧
    (Ev.rollback ∈ (serialized behave).1 ↔ e = .operational false) := by
  cases e with
  | operational b =>
    cases b with
    | true => exact absurd rfl hnc
    | false =>
      simp [serialized, serializedRun_hundred, h1, attemptCount]
  | exhausted =>
    simp [serialized, serializedRun_hundred, h1, attemptCount]
  | other c =>
    simp [serialized, serializedRun_hundred, h1, attemptCount]

/-- Witness for `serialized_nonconflict_single_attempt` at a concrete
behaviour raising `OperationalError` without a conflict cause on the
first attempt. -/
theorem serialized_nonconflict_single_attempt_witness :
    ((fun _ => Outcome.err (Exc.operational false) : Nat → Outcome Nat) 1 =
        Outcome.err (Exc.operational false)) ∧
    (Exc.operational false ≠ Exc.operational true) ∧
    ((serialized (fun _ => Outcome.err (Exc.operational false) :
        Nat → Outcome Nat)).2 = RunResult.raised (Exc.operational false) ∧
      attemptCount (serialized (fun _ =>
        Outcome.err (Exc.operational false) : Nat → Outcome Nat)).1 = 1 ∧
      Ev.sleep ∉ (serialized (fun _ =>
        Outcome.err (Exc.operational false) : Nat → Outcome Nat)).1 ∧
      (serialized (fun _ => Outcome.err (Exc.operational false) :
        Nat → Outcome Nat)).1.getLast? = some Ev.remove ∧
      (Ev.rollback ∈ (serialized (fun _ =>
          Outcome.err (Exc.operational false) : Nat → Outcome Nat)).1 ↔
        Exc.operational false = Exc.operational false)) :=
  ⟨rfl, by decide,
    serialized_nonconflict_single_attempt
      (fun _ => Outcome.err (Exc.operational false)) (Exc.operational false)
      rfl (by decide)⟩

/-- A work function whose first attempt raises an exception that is not an
`OperationalError` at all (for instance a `ValueError`). -/
def otherErrBehaviour : Nat → Outcome Nat := fun _ => .err (.other 0)

/-- Counterexample to C2 as stated: on a work function raising a
non-`OperationalError` exception (not a serialization-conflict error),
the driver propagates the error after a single attempt but performs NO
`session.rollback()` call: the exception is not caught by the
`except OperationalError` clause, so the claimed rollback never happens
(only the `finally: session.remove()` runs). -/
theorem serialized_other_error_no_rollback :
    (serialized otherErrBehaviour).2 = RunResult.raised (Exc.other 0) ∧
    Ev.rollback ∉ (serialized otherErrBehaviour).1 ∧
    attemptCount (serialized otherErrBehaviour).1 = 1 := by
  refine ⟨rfl, by decide, by decide⟩

/-! ## The outbox (`db.py`: `after_begin`, `after_soft_rollback`,
`queue_message`, `after_commit`) -/

/-- The per-session state relevant to the outbox pattern:
`outbox` models `session.info["outbox"]` (`none` when the key is absent
from the `info` dictionary), and `published` is the ordered list of
`(channel, message)` pairs published so far to the Redis bus by
`redis_conn.publish`. -/
structure SessionState where
  outbox : Option (List (String × String))
  published : List (String × String)
  deriving DecidableEq

/-- Session lifecycle events and operations affecting the outbox. -/
inductive DbOp where
  | beginTxn
  | queueMsg (channel message : String)
  | softRollback
  | commitTxn
  deriving DecidableEq

/-- One step of the outbox state machine, from the source listeners:
`after_begin` sets `session.info["outbox"] = []`; `after_soft_rollback`
(fired by SQLAlchemy for full and soft rollbacks alike) likewise resets
it to `[]`; `queue_message` initializes the key to `[]` if absent, then
appends `(channel, message)`; `after_commit` publishes every entry of
`session.info.get("outbox", ())` to the bus in insertion order (without
clearing the outbox — the next `after_begin` does that). -/
def stepDb (s : SessionState) : DbOp → SessionState
  | .beginTxn => { s with outbox := some [] }
  | .softRollback => { s with outbox := some [] }
  | .queueMsg c m => { s with outbox := some (s.outbox.getD [] ++ [(c, m)]) }
  | .commitTxn => { s with published := s.published ++ s.outbox.getD [] }

/-- Run a sequence of session operations. -/
def runDb (s : SessionState) : List DbOp → SessionState
  | [] => s
  | op :: ops => runDb (stepDb s op) ops

/-- The `queue_message` calls for a list of `(channel, message)` pairs. -/
def queueOps (qs : List (String × String)) : List DbOp :=
  qs.map (fun p => DbOp.queueMsg p.1 p.2)

/-- Queuing appends to the outbox in insertion order and publishes
nothing. -/
theorem runDb_queueOps (s : SessionState) (acc qs : List (String × String)) :
    runDb { s with outbox := some acc } (queueOps qs) =
      { s with outbox := some (acc ++ qs) } := by
  induction qs generalizing acc with
  | nil => simp [queueOps, runDb]
  | cons q qs ih =>
    obtain ⟨c, m⟩ := q
    simp only [queueOps, List.map_cons, runDb, stepDb, Option.getD_some]
    have h := ih (acc ++ [(c, m)])
    simp only [queueOps] at h
    simpa [List.append_assoc] using h

/-- C4: for every sequence of `queue_message(channel, message)` calls made
within one transaction that then commits, the bus receives exactly those
pairs, in insertion order, appended to whatever was published before; and
before the commit nothing at all has been published for this transaction
(the `published` list is untouched by begin and by every enqueue). -/
theorem outbox_publish_on_commit (s : SessionState)
    (qs : List (String × String)) :
    (runDb s (DbOp.beginTxn :: (queueOps qs ++ [DbOp.commitTxn]))).published =
        s.published ++ qs ∧
    (runDb s (DbOp.beginTxn :: queueOps qs)).published = s.published ∧
    (runDb s (DbOp.beginTxn :: queueOps qs)).outbox = some qs := by
  have hmid : runDb s (DbOp.beginTxn :: queueOps qs) =
      { s with outbox := some qs } := by
    have h := runDb_queueOps s [] qs
    simpa [runDb, stepDb] using h
  have hsplit : ∀ t ops more, runDb t (ops ++ more) = runDb (runDb t ops) more := by
    intro t ops
    induction ops generalizing t with
    | nil => intro more; rfl
    | cons op ops ih => intro more; simp [runDb, ih]
  refine ⟨?_, by rw [hmid], by rw [hmid]⟩
  have : runDb s (DbOp.beginTxn :: (queueOps qs ++ [DbOp.commitTxn])) =
      runDb (runDb s (DbOp.beginTxn :: queueOps qs)) [DbOp.commitTxn] := by
    show runDb s ((DbOp.beginTxn :: queueOps qs) ++ [DbOp.commitTxn]) = _
    exact hsplit s (DbOp.beginTxn :: queueOps qs) [DbOp.commitTxn]
  rw [this, hmid]
  simp [runDb, stepDb]

/-- C5: a rollback event (full rollbacks fire the same
`after_soft_rollback` listener) resets the session outbox to the empty
list, as does a transaction-begin event; consequently a rollback followed
by zero further `queue_message` calls and a commit publishes nothing. -/
theorem rollback_clears_outbox (s : SessionState) :
    (stepDb s DbOp.softRollback).outbox = some [] ∧
    (stepDb s DbOp.beginTxn).outbox = some [] ∧
    (runDb s [DbOp.softRollback, DbOp.commitTxn]).published = s.published := by
  refine ⟨rfl, rfl, ?_⟩
  simp [runDb, stepDb]

/-! ## The scoped transaction wrapper (`db.py`, `sessions_scope`) -/

/-- Calls made by `sessions_scope`, in order: running the work inside the
`with` body (`runWork`), `logger.exception(...)` in the `except` clause
(`logError`), `local_session.commit()` (`commitCall`),
`logger.debug("DB session auto-committed...")` (`logCommitted`),
`local_session.rollback()` (`rollbackCall`) and the
`finally: local_session.remove()` (`removeCall`). -/
inductive SEv where
  | runWork
  | logError
  | commitCall
  | logCommitted
  | rollbackCall
  | removeCall
  deriving DecidableEq

/-- The outcomes of the three fallible operations inside `sessions_scope`:
`workErr` is the exception the `with` body raises (if any), `commitErr`
the exception `local_session.commit()` raises if it is called, and
`rollbackErr` the exception `local_session.rollback()` raises if it is
called.  Exceptions are tagged by a numeric code so that distinct errors
can be told apart. -/
structure ScopeBehavior where
  workErr : Option Nat
  commitErr : Option Nat
  rollbackErr : Option Nat
  deriving DecidableEq

/-- The `sessions_scope` context manager from `db.py`, as a function from
the behaviour of work/commit/rollback and the `commit` flag to the trace
of calls made and the exception that escapes (`none` for a normal
return).  Faithful to the Python semantics: an exception from the body or
from `commit()` is caught by `except Exception as e`, which logs, calls
`rollback()` and re-raises `e` — but if `rollback()` itself raises, that
new exception propagates out of the `except` block and the `raise e` is
never reached; the `finally` clause always runs `remove()` last. -/
def sessions_scope (b : ScopeBehavior) (commit : Bool) :
    List SEv × Option Nat :=
  match b.workErr with
  | none =>
    if commit then
      match b.commitErr with
      | none => ([.runWork, .commitCall, .logCommitted, .removeCall], none)
      | some e =>
        match b.rollbackErr with
        | none =>
          ([.runWork, .commitCall, .logError, .rollbackCall, .removeCall],
            some e)
        | some e2 =>
          ([.runWork, .commitCall, .logError, .rollbackCall, .removeCall],
            some e2)
    else ([.runWork, .removeCall], none)
  | some e =>
    match b.rollbackErr with
    | none => ([.runWork, .logError, .rollbackCall, .removeCall], some e)
    | some e2 => ([.runWork, .logError, .rollbackCall, .removeCall], some e2)

/-- C6: on every exit path of `sessions_scope` — normal completion, an
error in the work, or an error raised by `commit()` or `rollback()`
themselves — `local_session.remove()` is the final call made, and it is
made exactly once, so the session is never left bound to the invoking
context. -/
theorem sessions_scope_always_releases (b : ScopeBehavior) (commit : Bool) :
    (sessions_scope b commit).1.getLast? = some SEv.removeCall ∧
    (sessions_scope b commit).1.count SEv.removeCall = 1 := by
  obtain ⟨w, ce, re⟩ := b
  cases w <;> cases commit <;> cases ce <;> cases re <;>
    simp [sessions_scope, List.count_cons]

/-- Counterexample to C7 as stated: when the work raises error `1` and the
subsequent `local_session.rollback()` itself raises error `2`, the
wrapper does not re-raise the original error unchanged — the rollback
error `2` propagates instead (inside the `except` block the failing
`rollback()` call aborts before `raise e` is reached), so the original
cause survives only in the log written beforehand. -/
theorem sessions_scope_rollback_failure_masks_error :
    (sessions_scope ⟨some 1, none, some 2⟩ false).2 = some 2 ∧
    (sessions_scope ⟨some 1, none, some 2⟩ false).2 ≠ some 1 := by
  refine ⟨rfl, by decide⟩

/-- C7 (amended): when the work raises, the wrapper logs the error before
attempting rollback and calls `rollback()`; if the rollback completes
without raising, the original error is re-raised unchanged, but if the
rollback itself raises, the rollback error propagates instead (the
original cause is preserved only in the log).  A `commit()` call is made
exactly when the work completes without raising and `commit = true` was
requested. -/
theorem sessions_scope_error_path (commit : Bool) (e e2 : Nat)
    (ce : Option Nat) (b : ScopeBehavior) (c2 : Bool) :
    (sessions_scope ⟨some e, ce, none⟩ commit).1 =
        [SEv.runWork, SEv.logError, SEv.rollbackCall, SEv.removeCall] ∧
    (sessions_scope ⟨some e, ce, none⟩ commit).2 = some e ∧
    (sessions_scope ⟨some e, ce, some e2⟩ commit).1 =
        [SEv.runWork, SEv.logError, SEv.rollbackCall, SEv.removeCall] ∧
    (sessions_scope ⟨some e, ce, some e2⟩ commit).2 = some e2 ∧
    (SEv.commitCall ∈ (sessions_scope b c2).1 ↔
        (b.workErr = none ∧ c2 = true)) := by
  obtain ⟨w, bce, bre⟩ := b
  cases commit <;> cases c2 <;> cases w <;> cases bce <;> cases bre <;>
    simp [sessions_scope]

/-! ## Mailer selection (`notifications.py`: `EmailConfig`, `get_mailer`) -/

/-- The placeholder value `u"???"` from `notifications.py`. -/
def CONFIG_PLACEHOLDER : String := "???"

/-- The configuration bundle as read by `EmailConfig.__init__` and
`get_mailer`: each `config.get(key)` yields `none` when the key is
absent. -/
structure Config where
  mode : Option String
  smtp_host : Option String
  smtp_username : Option String
  smtp_password : Option String
  contact_email_on_error : Option String
  dallinger_email_address : Option String
  deriving DecidableEq

/-- `EmailConfig`: the five email-related values extracted from a
configuration. -/
structure EmailConfig where
  smtp_host : Option String
  smtp_username : Option String
  contact_email_on_error : Option String
  smtp_password : Option String
  dallinger_email_address : Option String
  deriving DecidableEq

/-- `EmailConfig.__init__`, reading the five keys from the config. -/
def EmailConfig.ofConfig (c : Config) : EmailConfig :=
  { smtp_host := c.smtp_host
    smtp_username := c.smtp_username
    contact_email_on_error := c.contact_email_on_error
    smtp_password := c.smtp_password
    dallinger_email_address := c.dallinger_email_address }

/-- The per-attribute test in `EmailConfig.validate`:
`if not attr or attr == CONFIG_PLACEHOLDER` — a missing key (`None`), an
empty string (falsy) or the `"???"` placeholder counts as missing. -/
def attrMissing : Option String → Bool
  | none => true
  | some s => s = "" || s = CONFIG_PLACEHOLDER

/-- `EmailConfig.validate`: collect the missing keys of
`mail_config_keys` (the message lists them sorted; we keep the sorted key
order and return the list of missing keys in place of the formatted
message), returning `none` when nothing is missing. -/
def EmailConfig.validate (ec : EmailConfig) : Option (List String) :=
  let missing :=
    (([("contact_email_on_error", ec.contact_email_on_error),
       ("dallinger_email_address", ec.dallinger_email_address),
       ("smtp_host", ec.smtp_host),
       ("smtp_password", ec.smtp_password),
       ("smtp_username", ec.smtp_username)].filter
        (fun kv => attrMissing kv.2)).map Prod.fst)
  if missing = [] then none else some missing

/-- The two mailer variants built by `get_mailer`: `LoggingMailer()` and
`SMTPMailer(settings.smtp_host, settings.smtp_username,
settings.smtp_password)`. -/
inductive Mailer where
  | logging
  | smtp (host username password : Option String)
  deriving DecidableEq

/-- Result of `get_mailer`: a mailer, or the `InvalidEmailConfig`
exception raised under strict validation. -/
inductive MailerResult where
  | mailer (m : Mailer)
  | invalidEmailConfig (problems : List String)
  deriving DecidableEq

/-- `get_mailer(config, strict=False)` from `notifications.py`: in debug
mode return the logging variant; otherwise validate, and on problems
either raise `InvalidEmailConfig` (strict) or fall back to the logging
variant; with a valid configuration return the SMTP variant. -/
def get_mailer (config : Config) (strict : Bool) : MailerResult :=
  let settings := EmailConfig.ofConfig config
  if config.mode = some "debug" then .mailer .logging
  else
    match settings.validate with
    | some problems =>
      if strict then .invalidEmailConfig problems else .mailer .logging
    | none =>
      .mailer (.smtp settings.smtp_host settings.smtp_username
        settings.smtp_password)

/-- The claim's wording for a usable delivery field: present, non-empty
and not the placeholder value. -/
def requiredFieldOk (v : Option String) : Prop :=
  v ≠ none ∧ v ≠ some "" ∧ v ≠ some "???"

instance (v : Option String) : Decidable (requiredFieldOk v) := by
  unfold requiredFieldOk; infer_instance

/-- The claim's wording for a deliverable configuration: all five
required fields usable. -/
def allRequiredOk (c : Config) : Prop :=
  requiredFieldOk c.smtp_host ∧ requiredFieldOk c.smtp_username ∧
  requiredFieldOk c.smtp_password ∧ requiredFieldOk c.contact_email_on_error ∧
  requiredFieldOk c.dallinger_email_address

instance (c : Config) : Decidable (allRequiredOk c) := by
  unfold allRequiredOk; infer_instance

/-- The claim's usable-field test agrees pointwise with the source's
`not attr or attr == CONFIG_PLACEHOLDER` test. -/
theorem requiredFieldOk_iff (v : Option String) :
    requiredFieldOk v ↔ attrMissing v = false := by
  cases v with
  | none => simp [requiredFieldOk, attrMissing]
  | some s => simp [requiredFieldOk, attrMissing, CONFIG_PLACEHOLDER]

/-- The source's validation succeeds exactly when the claim's wording
holds: `validate` returns `None` iff every required delivery field is
present, non-empty and not the placeholder. -/
theorem validate_none_iff (c : Config) :
    (EmailConfig.ofConfig c).validate = none ↔ allRequiredOk c := by
  have hif : ∀ l : List String,
      (if l = [] then (none : Option (List String)) else some l) = none ↔
        l = [] := by
    intro l; split <;> simp_all
  unfold EmailConfig.validate
  rw [hif]
  simp only [List.map_eq_nil_iff, List.filter_eq_nil_iff,
    List.forall_mem_cons, List.not_mem_nil, EmailConfig.ofConfig,
    allRequiredOk, requiredFieldOk_iff, Bool.not_eq_true, forall_const]
  constructor
  · rintro ⟨h1, h2, h3, h4, h5, -⟩
    exact ⟨h3, h5, h4, h1, h2⟩
  · rintro ⟨h3, h5, h4, h1, h2⟩
    exact ⟨h1, h2, h3, h4, h5, fun _ h => h.elim⟩

/-- C8: `get_mailer` returns the logging variant exactly when the mode is
"debug", or some required delivery field is missing/empty/placeholder and
strict validation was not requested; it returns the SMTP variant (built
from the configured host, username and password) exactly when the mode is
not "debug" and all required fields are usable; and it raises
`InvalidEmailConfig` exactly when strict validation was requested on an
invalid non-debug configuration. -/
theorem get_mailer_selection (c : Config) (strict : Bool) :
    (get_mailer c strict = MailerResult.mailer Mailer.logging ↔
      (c.mode = some "debug" ∨ (¬allRequiredOk c ∧ strict = false))) ∧
    (get_mailer c strict =
        MailerResult.mailer
          (Mailer.smtp c.smtp_host c.smtp_username c.smtp_password) ↔
      (c.mode ≠ some "debug" ∧ allRequiredOk c)) ∧
    ((∃ ps, get_mailer c strict = MailerResult.invalidEmailConfig ps) ↔
      (c.mode ≠ some "debug" ∧ ¬allRequiredOk c ∧ strict = true)) := by
  unfold get_mailer
  by_cases hd : c.mode = some "debug"
  · simp [hd]
  · by_cases hok : allRequiredOk c
    · have hv := (validate_none_iff c).mpr hok
      simp only [EmailConfig.ofConfig] at hv
      simp [hd, hv, EmailConfig.ofConfig, hok]
    · have hv : (EmailConfig.ofConfig c).validate ≠ none := fun h =>
        hok ((validate_none_iff c).mp h)
      obtain ⟨ps, hps⟩ := Option.ne_none_iff_exists'.mp hv
      simp only [EmailConfig.ofConfig] at hps
      cases strict <;> simp [hd, hps, hok, EmailConfig.ofConfig]

/-! ## The SMTP mailer (`notifications.py`, `SMTPMailer.send`) -/

/-- An exception raised by the SMTP transport during
`starttls`/`login`/`send_message`/`quit`: either an
`smtplib.SMTPException` or an exception of any other class, tagged by a
code so distinct errors can be told apart. -/
inductive TransportErr where
  | smtpException (code : Nat)
  | otherException (code : Nat)
  deriving DecidableEq

/-- The `MessengerError` ("A message could not be relayed.") raised by
`SMTPMailer.send`, with the original transport error preserved as its
cause (`six.raise_from`). -/
structure MessengerError where
  message : String
  cause : TransportErr
  deriving DecidableEq

/-- An email message as assembled by `SMTPMailer._make_email`. -/
structure EmailMsg where
  subject : String
  sender : String
  recipients : List String
  body : String
  deriving DecidableEq

/-- The state of an `SMTPMailer` instance: the constructor arguments and
the `_sent` list of delivered messages. -/
structure SMTPMailer where
  host : Option String
  username : Option String
  password : Option String
  sent : List EmailMsg
  deriving DecidableEq

/-- The result of one `SMTPMailer.send` call: the mailer state
afterwards, the exception raised (if any), and the number of transport
delivery attempts that were made during the call. -/
structure SendResult where
  state : SMTPMailer
  raised : Option MessengerError
  transportAttempts : Nat
  deriving DecidableEq

/-- `SMTPMailer.send` from `notifications.py`.  The
`starttls`/`login`/`send_message`/`quit` interaction with the server is
abstracted into one transport outcome (`none` for success, `some e` when
any of those calls raises `e`).  Faithful to the source: the single `try`
block makes one delivery attempt with no loop; an `smtplib.SMTPException`
is wrapped into `MessengerError("SMTP error sending HIT error email.")`
and any other exception into
`MessengerError("Unknown error sending HIT error email.")`, both via
`six.raise_from` keeping the original as the cause; only when no
exception was raised does `self._sent.append(msg)` run. -/
def SMTPMailer.send (m : SMTPMailer) (msg : EmailMsg)
    (transport : Option TransportErr) : SendResult :=
  match transport with
  | none => ⟨{ m with sent := m.sent ++ [msg] }, none, 1⟩
  | some (.smtpException c) =>
    ⟨m, some ⟨"SMTP error sending HIT error email.", .smtpException c⟩, 1⟩
  | some (.otherException c) =>
    ⟨m, some ⟨"Unknown error sending HIT error email.", .otherException c⟩, 1⟩

/-- C9: whatever transport error is raised during `SMTPMailer.send` —
an SMTP error or any other exception — the call raises a
`MessengerError` whose cause is the original transport error, after
exactly one delivery attempt (no retry). -/
theorem smtp_send_wraps_transport_errors (m : SMTPMailer) (msg : EmailMsg)
    (e : TransportErr) :
    ∃ me : MessengerError,
      (SMTPMailer.send m msg (some e)).raised = some me ∧ me.cause = e ∧
      (SMTPMailer.send m msg (some e)).transportAttempts = 1 := by
  cases e <;> exact ⟨_, rfl, rfl, rfl⟩

/-- C10: `SMTPMailer.send` appends the message to the `_sent` list only
on the success path; when any transport error is raised the `_sent` list
is left unchanged by the call. -/
theorem smtp_send_records_only_on_success (m : SMTPMailer) (msg : EmailMsg)
    (e : TransportErr) :
    (SMTPMailer.send m msg (some e)).state.sent = m.sent ∧
    (SMTPMailer.send m msg none).state.sent = m.sent ++ [msg] ∧
    (SMTPMailer.send m msg none).raised = none := by
  cases e <;> exact ⟨rfl, rfl, rfl⟩

end Dallinger
